import Mathlib

/-!
# Verification of the `GroupEstimate` estimator (`src/apputil.py`)

Shallow embedding of the group-based estimator: `fit` builds a group
aggregate table (mean or median of the numeric target per distinct tuple of
categorical feature values) and an optional single-column fallback table;
`predict` looks rows up by exact key, then by the fallback column's value,
and otherwise yields a missing sentinel.

Modelling choices:
* categorical values are `String`; numeric values are `ℚ` (exact arithmetic);
* a possibly-missing numeric value (NaN) is `Option ℚ` with `none` for NaN;
* a pandas `DataFrame` of categoricals is a list of column names plus a list
  of rows (each row a list of values in column order);
* the pandas `Series` produced by `groupby(...).mean()/.median()` is an
  association list from key to aggregate, with the index names kept
  alongside (`group_estimates.index.names` is the stored column list);
  the membership test `tuple(row.values) in index` is `indexLookup`, which
  distinguishes the MultiIndex produced by grouping on two or more columns
  (tuple entries, so the tuple key can match) from the flat index produced
  by grouping on exactly one column (scalar entries, of which the 1-tuple
  key is never a member, so the exact match always misses);
* Python exceptions become `Except` errors (`ValueError` at fit time is
  `FitError.invalidInput`; the predict-time `RuntimeError` and `ValueError`
  are `PredictError.notFitted` / `PredictError.schemaMismatch`); an error
  result leaves the caller's estimator untouched, matching the Python code,
  which raises before mutating `self`;
* the informational `print` of the missing count is returned as data (the
  second component of `predict`'s result).
-/

/-- Aggregation mode of the estimator (`estimate` is `"mean"` or `"median"`,
enforced in `__init__`). -/
inductive Mode
  | mean
  | median
deriving DecidableEq, Repr

/-- A table of categorical columns: named columns and rows in column order
(embeds the pandas `DataFrame` of features). -/
structure DataFrame where
  cols : List String
  rows : List (List String)
deriving DecidableEq, Repr

/-- First index of a column name in a column list (embeds positional lookup
of a named column; `row[c]` reads the row at this index). -/
def colIdx (cols : List String) (c : String) : Nat :=
  match cols with
  | [] => 0
  | c0 :: rest => if c0 = c then 0 else colIdx rest c + 1

/-- Value of `row` at named column `c` (embeds `row[c]`). -/
def colValue (cols : List String) (row : List String) (c : String) : String :=
  row.getD (colIdx cols c) ""

/-- Association-list lookup by full group key: `some` exactly when the key
is stored in the group aggregate table (the contents view of the groupby
series; `indexLookup` below is the membership test `predict` actually
performs against the series' index). -/
def lookupKey (t : List (List String × ℚ)) (k : List String) : Option ℚ :=
  match t with
  | [] => none
  | p :: rest => if p.1 = k then some p.2 else lookupKey rest k

/-- Embeds the exact-match test of `predict`:
`tuple(row.values) in self.group_estimates.index` followed by `.loc[key]`.
Grouping by two or more columns produces a MultiIndex whose entries are the
key tuples, so the tuple key is looked up among the stored keys; grouping
by exactly one column leaves a flat index of scalar values, and the
1-tuple key `predict` builds never tests as a member of it, so the lookup
always misses. -/
def indexLookup (ncols : Nat) (t : List (List String × ℚ)) (k : List String) :
    Option ℚ :=
  if ncols = 1 then none else lookupKey t k

/-- Association-list lookup by single categorical value (embeds
`cat_value in default_estimates.index` / `default_estimates.loc[cat_value]`). -/
def lookupStr (t : List (String × ℚ)) (v : String) : Option ℚ :=
  match t with
  | [] => none
  | p :: rest => if p.1 = v then some p.2 else lookupStr rest v

/-- Arithmetic mean of a list of rationals (embeds pandas `.mean()` on a
groupby series; groups are never empty in practice). -/
def meanOf (vals : List ℚ) : ℚ :=
  vals.sum / vals.length

/-- Median of a list of rationals: sort, take the middle element for odd
length, the midpoint of the two middle elements for even length (embeds
pandas `.median()`). -/
def medianOf (vals : List ℚ) : ℚ :=
  let s := List.insertionSort (· ≤ ·) vals
  if s.length % 2 = 1 then s.getD (s.length / 2) 0
  else (s.getD (s.length / 2 - 1) 0 + s.getD (s.length / 2) 0) / 2

/-- The chosen aggregate of a list of target values. -/
def aggregate (m : Mode) (vals : List ℚ) : ℚ :=
  match m with
  | Mode.mean => meanOf vals
  | Mode.median => medianOf vals

/-- Target values of exactly the training rows whose feature tuple equals
`k` (the group of `k` under `df.groupby(list(X.columns))`). -/
def groupTargets (rows : List (List String)) (ys : List ℚ) (k : List String) : List ℚ :=
  (rows.zip ys).filterMap fun p => if p.1 = k then some p.2 else none

/-- The group aggregate table: one entry per distinct feature tuple observed
in training, valued at the aggregate of that group's targets (embeds
`df.groupby(list(X.columns))[target].mean()/.median()`). -/
def buildGroupTable (m : Mode) (rows : List (List String)) (ys : List ℚ) :
    List (List String × ℚ) :=
  rows.dedup.map fun k => (k, aggregate m (groupTargets rows ys k))

/-- Target values of exactly the training rows whose value in the fallback
column equals `v`. -/
def fallbackTargets (colVals : List String) (ys : List ℚ) (v : String) : List ℚ :=
  (colVals.zip ys).filterMap fun p => if p.1 = v then some p.2 else none

/-- The fallback aggregate table: one entry per distinct value of the
designated column (embeds `df.groupby(default_category)[target].mean()/.median()`). -/
def buildFallbackTable (m : Mode) (colVals : List String) (ys : List ℚ) :
    List (String × ℚ) :=
  colVals.dedup.map fun v => (v, aggregate m (fallbackTargets colVals ys v))

/-- Numeric targets as supplied to aggregation once validation has ruled
out missing values (`none` entries never survive validation; `getD 0` is a
positional reading of the same list as rationals). -/
def ysOf (y : List (Option ℚ)) : List ℚ := y.map fun o => o.getD 0

/-- The estimator's state: aggregation mode plus the three fields assigned
by `fit` (`group_estimates` carries its index names, i.e. the fitted column
list, alongside the table). `none` in `group_estimates` is the unfitted
state. -/
structure GroupEstimate where
  estimate : Mode
  group_estimates : Option (List String × List (List String × ℚ))
  default_category : Option String
  default_estimates : Option (List (String × ℚ))
deriving DecidableEq, Repr

/-- A freshly constructed estimator (embeds `__init__` after mode
validation). -/
def GroupEstimate.init (m : Mode) : GroupEstimate :=
  { estimate := m, group_estimates := none, default_category := none,
    default_estimates := none }

/-- Fit-time error (`ValueError` for shape mismatch / missing targets). -/
inductive FitError
  | invalidInput
deriving DecidableEq, Repr

/-- Predict-time errors (`RuntimeError` before fit, `ValueError` on column
mismatch). -/
inductive PredictError
  | notFitted
  | schemaMismatch
deriving DecidableEq, Repr

/-- The fallback table assigned by `fit`: built only when a fallback column
is designated and actually names a feature column (a `dc` absent from the
columns only warns and leaves no fallback table). -/
def fallbackOf (m : Mode) (X : DataFrame) (ys : List ℚ) (dc : Option String) :
    Option (List (String × ℚ)) :=
  match dc with
  | none => none
  | some c =>
    if c ∈ X.cols then
      some (buildFallbackTable m (X.rows.map fun r => colValue X.cols r c) ys)
    else none

/-- Embeds `GroupEstimate.fit`: validate (row count of `X` equals length of
`y`; no missing target), then build the group aggregate table keyed by the
full feature tuple, and the fallback table when applicable. An error leaves
the estimator unchanged (the Python code raises before any assignment to
`self`). -/
def GroupEstimate.fit (g : GroupEstimate) (X : DataFrame) (y : List (Option ℚ))
    (dc : Option String) : Except FitError GroupEstimate :=
  if X.rows.length ≠ y.length then Except.error FitError.invalidInput
  else if y.any (fun o => o.isNone) then Except.error FitError.invalidInput
  else
    Except.ok { estimate := g.estimate,
                group_estimates := some (X.cols, buildGroupTable g.estimate X.rows (ysOf y)),
                default_category := dc,
                default_estimates := fallbackOf g.estimate X (ysOf y) dc }

/-- Prediction input: a named table (`pd.DataFrame`) or raw rows in fitted
column order (any other sequence, wrapped by
`pd.DataFrame(X_, columns=self.group_estimates.index.names)`). -/
inductive PredictInput
  | frame (df : DataFrame)
  | raw (rows : List (List String))
deriving DecidableEq, Repr

/-- Whether two column lists carry the same set of names (embeds
`set(X_df.columns) == set(expected_cols)`). -/
def sameColSet (a b : List String) : Bool :=
  (a.all fun c => decide (c ∈ b)) && (b.all fun c => decide (c ∈ a))

/-- Column selection `X_df[expected_cols]`: reorder the named columns. -/
def DataFrame.selectCols (df : DataFrame) (cols : List String) : DataFrame :=
  DataFrame.mk cols (df.rows.map fun r => cols.map fun c => colValue df.cols r c)

/-- Per-row resolution of `predict`: exact group lookup through the index
membership test (`indexLookup`, which always misses on a single fitted
column), then the fallback lookup when a fallback category was designated
and is among the columns, else the missing sentinel (`none` embeds
`np.nan`). -/
def resolveRow (dc : Option String) (de : Option (List (String × ℚ)))
    (table : List (List String × ℚ)) (cols : List String) (row : List String) :
    Option ℚ :=
  match indexLookup cols.length table row with
  | some v => some v
  | none =>
    match dc with
    | some c =>
      if c ∈ cols then
        match de with
        | some det => lookupStr det (colValue cols row c)
        | none => none
      else none
    | none => none

/-- Embeds `GroupEstimate.predict`: fail when unfitted; wrap raw rows into a
frame with the fitted columns; reorder a named frame whose column set
matches in a different order, fail when the sets differ; then resolve each
row in order. The result pairs the per-row predictions (`none` = NaN) with
the missing count reported by the informational message. -/
def GroupEstimate.predict (g : GroupEstimate) (X_ : PredictInput) :
    Except PredictError (List (Option ℚ) × Nat) :=
  match g.group_estimates with
  | none => Except.error PredictError.notFitted
  | some ge =>
    let X_df : DataFrame :=
      match X_ with
      | PredictInput.frame df => df
      | PredictInput.raw rows => DataFrame.mk ge.1 rows
    if X_df.cols = ge.1 then
      let results := X_df.rows.map
        (resolveRow g.default_category g.default_estimates ge.2 X_df.cols)
      Except.ok (results, results.countP fun r => r.isNone)
    else if sameColSet X_df.cols ge.1 then
      let X2 := DataFrame.selectCols X_df ge.1
      let results := X2.rows.map
        (resolveRow g.default_category g.default_estimates ge.2 X2.cols)
      Except.ok (results, results.countP fun r => r.isNone)
    else Except.error PredictError.schemaMismatch

/-! Concrete data for evaluating the development: the worked example of the
specification (three training rows over columns `country`, `roast` with
mean targets), a fitted estimator without and with the `country` fallback,
and a median-mode estimator whose single group has an even target count. -/

def exX : DataFrame :=
  DataFrame.mk ["country", "roast"] [["US", "Light"], ["US", "Light"], ["BR", "Dark"]]

def exY : List (Option ℚ) := [some 4, some 3, some 2]

def exFit : GroupEstimate :=
  { estimate := Mode.mean,
    group_estimates := some (exX.cols, buildGroupTable Mode.mean exX.rows (ysOf exY)),
    default_category := none,
    default_estimates := none }

def exFitFb : GroupEstimate :=
  { estimate := Mode.mean,
    group_estimates := some (exX.cols, buildGroupTable Mode.mean exX.rows (ysOf exY)),
    default_category := some "country",
    default_estimates := fallbackOf Mode.mean exX (ysOf exY) (some "country") }

def exX8 : DataFrame := DataFrame.mk ["a"] [["x"], ["x"], ["x"], ["x"]]

def exY8 : List (Option ℚ) := [some 1, some 10, some 2, some 100]

def exFitMed : GroupEstimate :=
  { estimate := Mode.median,
    group_estimates := some (exX8.cols, buildGroupTable Mode.median exX8.rows (ysOf exY8)),
    default_category := none,
    default_estimates := none }

/-! ## Helper lemmas -/

theorem fit_ok_inv {g g' : GroupEstimate} {X : DataFrame} {y : List (Option ℚ)}
    {dc : Option String} (hfit : g.fit X y dc = Except.ok g') :
    X.rows.length = y.length ∧ y.any (fun o => o.isNone) = false ∧
    g' = { estimate := g.estimate,
           group_estimates := some (X.cols, buildGroupTable g.estimate X.rows (ysOf y)),
           default_category := dc,
           default_estimates := fallbackOf g.estimate X (ysOf y) dc } := by
  unfold GroupEstimate.fit at hfit
  by_cases h1 : X.rows.length = y.length
  · rw [if_neg (by simp [h1])] at hfit
    by_cases h2 : y.any (fun o => o.isNone) = false
    · rw [if_neg (by simp [h2])] at hfit
      simp only [Except.ok.injEq] at hfit
      exact ⟨h1, h2, hfit.symm⟩
    · rw [if_pos (by simpa using h2)] at hfit
      exact absurd hfit (by simp)
  · rw [if_pos h1] at hfit
    exact absurd hfit (by simp)

theorem lookupKey_map_iff (f : List String → ℚ) (keys : List (List String))
    (r : List String) (v : ℚ) :
    lookupKey (keys.map fun k => (k, f k)) r = some v ↔ r ∈ keys ∧ v = f r := by
  induction keys with
  | nil => simp [lookupKey]
  | cons k rest ih =>
    simp only [List.map_cons, lookupKey, List.mem_cons]
    by_cases hk : k = r
    · subst hk
      simp [eq_comm]
    · rw [if_neg hk, ih]
      constructor
      · rintro ⟨h1, h2⟩
        exact ⟨Or.inr h1, h2⟩
      · rintro ⟨h1, h2⟩
        rcases h1 with h1 | h1
        · exact absurd h1.symm hk
        · exact ⟨h1, h2⟩

theorem lookupKey_buildGroupTable (m : Mode) (rows : List (List String))
    (ys : List ℚ) (r : List String) (v : ℚ) :
    lookupKey (buildGroupTable m rows ys) r = some v ↔
      r ∈ rows ∧ v = aggregate m (groupTargets rows ys r) := by
  unfold buildGroupTable
  rw [lookupKey_map_iff]
  simp [List.mem_dedup]

theorem groupTargets_ne_nil {rows : List (List String)} {ys : List ℚ}
    {k : List String} (hk : k ∈ rows) (hlen : rows.length = ys.length) :
    groupTargets rows ys k ≠ [] := by
  induction rows generalizing ys with
  | nil => cases hk
  | cons r rt ih =>
    cases ys with
    | nil => simp at hlen
    | cons b yt =>
      simp only [groupTargets, List.zip_cons_cons, List.filterMap_cons]
      by_cases hr : r = k
      · simp [hr]
      · rw [if_neg hr]
        have hkt : k ∈ rt := by
          rcases List.mem_cons.mp hk with h | h
          · exact absurd h.symm hr
          · exact h
        exact ih hkt (by simpa using hlen)

theorem predict_raw_eq {g : GroupEstimate} {ec : List String}
    {table : List (List String × ℚ)}
    (h : g.group_estimates = some (ec, table)) (rows : List (List String)) :
    g.predict (PredictInput.raw rows) =
      Except.ok
        (rows.map (resolveRow g.default_category g.default_estimates table ec),
         (rows.map (resolveRow g.default_category g.default_estimates table ec)).countP
           fun r => r.isNone) := by
  unfold GroupEstimate.predict
  rw [h]
  simp

theorem indexLookup_of_multi {n : Nat} (hn : n ≠ 1) (t : List (List String × ℚ))
    (k : List String) : indexLookup n t k = lookupKey t k :=
  if_neg hn

theorem indexLookup_none_of_none {t : List (List String × ℚ)} {k : List String}
    (n : Nat) (h : lookupKey t k = none) : indexLookup n t k = none := by
  unfold indexLookup
  split
  · rfl
  · exact h

theorem resolveRow_hit {table : List (List String × ℚ)} {row : List String} {v : ℚ}
    (dc : Option String) (de : Option (List (String × ℚ))) (cols : List String)
    (h : indexLookup cols.length table row = some v) :
    resolveRow dc de table cols row = some v := by
  unfold resolveRow
  rw [h]

theorem sameColSet_self (a : List String) : sameColSet a a = true := by
  simp [sameColSet]

theorem get_map_some {α β : Type} (f : α → β) (l : List α) (i : Nat) (a : α)
    (h : l[i]? = some a) : (l.map f)[i]? = some (f a) := by
  rw [List.getElem?_map, h]
  rfl

theorem predict_frame_match {g : GroupEstimate} {ec : List String}
    {table : List (List String × ℚ)}
    (h : g.group_estimates = some (ec, table)) (df : DataFrame) (hc : df.cols = ec) :
    g.predict (PredictInput.frame df) =
      Except.ok
        (df.rows.map (resolveRow g.default_category g.default_estimates table ec),
         (df.rows.map (resolveRow g.default_category g.default_estimates table ec)).countP
           fun r => r.isNone) := by
  unfold GroupEstimate.predict
  rw [h]
  simp [hc]

/-- Claim C1: for every valid fit, every key present in the group aggregate
table corresponds to at least one training row whose full feature tuple
equals that key (its group of matching training rows is non-empty), and the
stored value equals the exact mean (mode `mean`) or median (mode `median`)
of the target values of exactly those training rows whose feature tuple
equals the key. -/
theorem fit_group_table_exact (g g' : GroupEstimate) (X : DataFrame)
    (y : List (Option ℚ)) (dc : Option String)
    (hfit : g.fit X y dc = Except.ok g')
    (tcols : List String) (table : List (List String × ℚ))
    (htab : g'.group_estimates = some (tcols, table))
    (k : List String) (v : ℚ)
    (hk : lookupKey table k = some v) :
    k ∈ X.rows ∧ groupTargets X.rows (ysOf y) k ≠ [] ∧
      v = aggregate g.estimate (groupTargets X.rows (ysOf y) k) := by
  obtain ⟨hlen, hnn, hg⟩ := fit_ok_inv hfit
  subst hg
  simp only [Option.some.injEq, Prod.mk.injEq] at htab
  obtain ⟨hc, ht⟩ := htab
  rw [← ht] at hk
  rw [lookupKey_buildGroupTable] at hk
  obtain ⟨hmem, hv⟩ := hk
  refine ⟨hmem, ?_, hv⟩
  exact groupTargets_ne_nil hmem (by simp [ysOf, hlen])

theorem fit_group_table_exact_witness :
    (GroupEstimate.init Mode.mean).fit exX exY none = Except.ok exFit ∧
    exFit.group_estimates = some (exX.cols, buildGroupTable Mode.mean exX.rows (ysOf exY)) ∧
    lookupKey (buildGroupTable Mode.mean exX.rows (ysOf exY)) ["US", "Light"] =
      some (aggregate Mode.mean (groupTargets exX.rows (ysOf exY) ["US", "Light"])) ∧
    (["US", "Light"] ∈ exX.rows ∧
      groupTargets exX.rows (ysOf exY) ["US", "Light"] ≠ [] ∧
      aggregate Mode.mean (groupTargets exX.rows (ysOf exY) ["US", "Light"]) =
        aggregate (GroupEstimate.init Mode.mean).estimate
          (groupTargets exX.rows (ysOf exY) ["US", "Light"])) :=
  ⟨rfl, rfl, rfl,
    fit_group_table_exact (GroupEstimate.init Mode.mean) exFit exX exY none rfl
      exX.cols (buildGroupTable Mode.mean exX.rows (ysOf exY)) rfl
      ["US", "Light"] (aggregate Mode.mean (groupTargets exX.rows (ysOf exY) ["US", "Light"]))
      rfl⟩

/-- Claim C2, amended to fits of at least two feature columns (with exactly
one fitted column the groupby index is flat and the 1-tuple membership test
of the source never succeeds, so the exact-match branch is dead there —
see the counterexample): on such a fit, predicting any batch containing,
at any position, a row whose exact feature tuple appeared in training
returns at that position precisely the aggregate stored in the group table
for that key, whatever the other rows of the batch are. -/
theorem predict_exact_match (g g' : GroupEstimate) (X : DataFrame)
    (y : List (Option ℚ)) (dc : Option String)
    (hfit : g.fit X y dc = Except.ok g')
    (rows : List (List String)) (i : Nat) (r : List String)
    (hrow : rows[i]? = some r) (htrain : r ∈ X.rows)
    (hcols : 2 ≤ X.cols.length) :
    ∃ out m, g'.predict (PredictInput.raw rows) = Except.ok (out, m) ∧
      lookupKey (buildGroupTable g.estimate X.rows (ysOf y)) r =
        some (aggregate g.estimate (groupTargets X.rows (ysOf y) r)) ∧
      out[i]? = some (some (aggregate g.estimate (groupTargets X.rows (ysOf y) r))) := by
  obtain ⟨hlen, hnn, hg⟩ := fit_ok_inv hfit
  have hge : g'.group_estimates =
      some (X.cols, buildGroupTable g.estimate X.rows (ysOf y)) := by rw [hg]
  have hlk : lookupKey (buildGroupTable g.estimate X.rows (ysOf y)) r =
      some (aggregate g.estimate (groupTargets X.rows (ysOf y) r)) :=
    (lookupKey_buildGroupTable _ _ _ _ _).mpr ⟨htrain, rfl⟩
  have hil : indexLookup X.cols.length (buildGroupTable g.estimate X.rows (ysOf y)) r =
      some (aggregate g.estimate (groupTargets X.rows (ysOf y) r)) := by
    rw [indexLookup_of_multi (by omega), hlk]
  refine ⟨_, _, predict_raw_eq hge rows, hlk, ?_⟩
  rw [get_map_some _ rows i r hrow, resolveRow_hit _ _ _ hil]

/-- Claim C2, counterexample to the unrestricted statement: after a fit on
a single feature column, the trained key `["x"]` is stored in the group
aggregate table with its aggregate, yet `predict` on exactly that row
misses it (the 1-tuple is never a member of the flat index) and yields the
missing sentinel — not the stored aggregate — together with a missing
count of 1. -/
theorem predict_exact_match_cex :
    ["x"] ∈ exX8.rows ∧
    lookupKey (buildGroupTable Mode.median exX8.rows (ysOf exY8)) ["x"] =
      some (aggregate Mode.median (groupTargets exX8.rows (ysOf exY8) ["x"])) ∧
    exFitMed.predict (PredictInput.raw [["x"]]) = Except.ok ([none], 1) ∧
    (none : Option ℚ) ≠
      some (aggregate Mode.median (groupTargets exX8.rows (ysOf exY8) ["x"])) :=
  ⟨by decide, rfl, rfl, by simp⟩

theorem predict_exact_match_witness :
    (GroupEstimate.init Mode.mean).fit exX exY none = Except.ok exFit ∧
    ([["BR", "Dark"], ["US", "Light"]] : List (List String))[1]? = some ["US", "Light"] ∧
    ["US", "Light"] ∈ exX.rows ∧
    2 ≤ exX.cols.length ∧
    (∃ out m, exFit.predict (PredictInput.raw [["BR", "Dark"], ["US", "Light"]]) =
        Except.ok (out, m) ∧
      lookupKey (buildGroupTable (GroupEstimate.init Mode.mean).estimate exX.rows (ysOf exY))
          ["US", "Light"] =
        some (aggregate (GroupEstimate.init Mode.mean).estimate
          (groupTargets exX.rows (ysOf exY) ["US", "Light"])) ∧
      out[1]? = some (some (aggregate (GroupEstimate.init Mode.mean).estimate
        (groupTargets exX.rows (ysOf exY) ["US", "Light"])))) :=
  ⟨rfl, rfl, by decide, by decide,
    predict_exact_match (GroupEstimate.init Mode.mean) exFit exX exY none rfl
      [["BR", "Dark"], ["US", "Light"]] 1 ["US", "Light"] rfl (by decide) (by decide)⟩

theorem resolveRow_miss_some {table : List (List String × ℚ)} {row : List String}
    {v : ℚ} (c : String) (det : List (String × ℚ)) (cols : List String)
    (hmiss : lookupKey table row = none) (hc : c ∈ cols)
    (hl : lookupStr det (colValue cols row c) = some v) :
    resolveRow (some c) (some det) table cols row = some v := by
  unfold resolveRow
  rw [indexLookup_none_of_none cols.length hmiss]
  simp [hc, hl]

theorem resolveRow_miss_de_none {table : List (List String × ℚ)} {row : List String}
    (dc : Option String) (cols : List String)
    (hmiss : lookupKey table row = none) :
    resolveRow dc none table cols row = none := by
  unfold resolveRow
  rw [indexLookup_none_of_none cols.length hmiss]
  cases dc with
  | none => rfl
  | some c =>
    by_cases hc : c ∈ cols
    · simp [hc]
    · simp [hc]

theorem resolveRow_miss_fb_none {table : List (List String × ℚ)} {row : List String}
    (c : String) (det : List (String × ℚ)) (cols : List String)
    (hmiss : lookupKey table row = none)
    (hl : lookupStr det (colValue cols row c) = none) :
    resolveRow (some c) (some det) table cols row = none := by
  unfold resolveRow
  rw [indexLookup_none_of_none cols.length hmiss]
  by_cases hc : c ∈ cols
  · simp [hc, hl]
  · simp [hc]

theorem fallbackOf_eq_some {m : Mode} {X : DataFrame} {ys : List ℚ}
    {dc : Option String} {det : List (String × ℚ)}
    (h : fallbackOf m X ys dc = some det) :
    ∃ c, dc = some c ∧ c ∈ X.cols ∧
      det = buildFallbackTable m (X.rows.map fun r => colValue X.cols r c) ys := by
  cases dc with
  | none => exact absurd h (by simp [fallbackOf])
  | some c =>
    by_cases hc : c ∈ X.cols
    · simp only [fallbackOf, if_pos hc, Option.some.injEq] at h
      exact ⟨c, rfl, hc, h.symm⟩
    · simp only [fallbackOf, if_neg hc] at h
      exact absurd h (by simp)

/-- Claim C3: a prediction row whose exact feature tuple is absent from the
group aggregate table resolves without any exception: the batch still
yields one entry per input row plus the informational missing count, the
entry is the fallback aggregate when a valid fallback column was designated
and the row's value in it is a key of the fallback table, and the missing
sentinel (`none`, embedding NaN) in every other case. -/
theorem predict_missing_group (g g' : GroupEstimate) (X : DataFrame)
    (y : List (Option ℚ)) (dc : Option String)
    (hfit : g.fit X y dc = Except.ok g')
    (rows : List (List String)) (i : Nat) (r : List String)
    (hrow : rows[i]? = some r)
    (hmiss : lookupKey (buildGroupTable g.estimate X.rows (ysOf y)) r = none) :
    ∃ out m, g'.predict (PredictInput.raw rows) = Except.ok (out, m) ∧
      out.length = rows.length ∧ m = out.countP (fun o => o.isNone) ∧
      (∀ c det v, g'.default_category = some c → g'.default_estimates = some det →
        lookupStr det (colValue X.cols r c) = some v → out[i]? = some (some v)) ∧
      (g'.default_estimates = none → out[i]? = some none) ∧
      (∀ c det, g'.default_category = some c → g'.default_estimates = some det →
        lookupStr det (colValue X.cols r c) = none → out[i]? = some none) := by
  obtain ⟨hlen, hnn, hg⟩ := fit_ok_inv hfit
  have hge : g'.group_estimates =
      some (X.cols, buildGroupTable g.estimate X.rows (ysOf y)) := by rw [hg]
  have hdcf : g'.default_category = dc := by rw [hg]
  have hdef : g'.default_estimates = fallbackOf g.estimate X (ysOf y) dc := by rw [hg]
  refine ⟨_, _, predict_raw_eq hge rows, by simp, rfl, ?_, ?_, ?_⟩
  · intro c det v hc hd hl
    have hdet : fallbackOf g.estimate X (ysOf y) dc = some det := hdef.symm.trans hd
    obtain ⟨c2, hdc2, hcc2, hdet2⟩ := fallbackOf_eq_some hdet
    have hdc : dc = some c := hdcf.symm.trans hc
    have hcc : c ∈ X.cols := by
      rw [hdc] at hdc2
      obtain rfl : c2 = c := by injection hdc2.symm
      exact hcc2
    rw [get_map_some _ rows i r hrow, hc, hd,
      resolveRow_miss_some c det X.cols hmiss hcc hl]
  · intro hd
    rw [get_map_some _ rows i r hrow, hd,
      resolveRow_miss_de_none g'.default_category X.cols hmiss]
  · intro c det hc hd hl
    rw [get_map_some _ rows i r hrow, hc, hd,
      resolveRow_miss_fb_none c det X.cols hmiss hl]

theorem predict_missing_group_witness :
    (GroupEstimate.init Mode.mean).fit exX exY (some "country") = Except.ok exFitFb ∧
    ([["US", "Dark"]] : List (List String))[0]? = some ["US", "Dark"] ∧
    lookupKey (buildGroupTable (GroupEstimate.init Mode.mean).estimate exX.rows (ysOf exY))
      ["US", "Dark"] = none ∧
    (∃ out m, exFitFb.predict (PredictInput.raw [["US", "Dark"]]) = Except.ok (out, m) ∧
      out.length = ([["US", "Dark"]] : List (List String)).length ∧
      m = out.countP (fun o => o.isNone) ∧
      (∀ c det v, exFitFb.default_category = some c → exFitFb.default_estimates = some det →
        lookupStr det (colValue exX.cols ["US", "Dark"] c) = some v → out[0]? = some (some v)) ∧
      (exFitFb.default_estimates = none → out[0]? = some none) ∧
      (∀ c det, exFitFb.default_category = some c → exFitFb.default_estimates = some det →
        lookupStr det (colValue exX.cols ["US", "Dark"] c) = none → out[0]? = some none)) :=
  ⟨rfl, rfl, rfl,
    predict_missing_group (GroupEstimate.init Mode.mean) exFitFb exX exY (some "country") rfl
      [["US", "Dark"]] 0 ["US", "Dark"] rfl rfl⟩

/-- Claim C4: a fit call whose features row count differs from the target
length, or whose targets contain a missing value, fails with
`InvalidInput`; the embedding returns only the error, so the caller's
estimator value is untouched (matching the source, which raises during
validation before assigning any state). -/
theorem fit_invalid_input (g : GroupEstimate) (X : DataFrame)
    (y : List (Option ℚ)) (dc : Option String)
    (h : X.rows.length ≠ y.length ∨ none ∈ y) :
    g.fit X y dc = Except.error FitError.invalidInput := by
  unfold GroupEstimate.fit
  rcases h with h | h
  · rw [if_pos h]
  · by_cases h1 : X.rows.length ≠ y.length
    · rw [if_pos h1]
    · rw [if_neg h1, if_pos]
      rw [List.any_eq_true]
      exact ⟨none, h, rfl⟩

theorem fit_invalid_input_witness :
    (exX.rows.length ≠ ([some 4, some 2] : List (Option ℚ)).length ∨
      none ∈ ([some 4, some 2] : List (Option ℚ))) ∧
    (GroupEstimate.init Mode.mean).fit exX [some 4, some 2] none =
      Except.error FitError.invalidInput :=
  ⟨Or.inl (by decide),
    fit_invalid_input (GroupEstimate.init Mode.mean) exX [some 4, some 2] none
      (Or.inl (by decide))⟩

/-- Claim C6: on an estimator with no successful fit (its group table is
still the initial `none`), every predict call fails with `NotFitted`. -/
theorem predict_not_fitted (g : GroupEstimate) (h : g.group_estimates = none)
    (X_ : PredictInput) : g.predict X_ = Except.error PredictError.notFitted := by
  unfold GroupEstimate.predict
  rw [h]

theorem predict_not_fitted_witness :
    (GroupEstimate.init Mode.mean).group_estimates = none ∧
    (GroupEstimate.init Mode.mean).predict (PredictInput.raw [["US", "Light"]]) =
      Except.error PredictError.notFitted :=
  ⟨rfl, predict_not_fitted (GroupEstimate.init Mode.mean) rfl
    (PredictInput.raw [["US", "Light"]])⟩

/-- Claim C7: fit and predict are deterministic and free of hidden inputs:
two estimators whose aggregation modes agree produce identical fit results
on the same data (whatever their prior fitted state), and two estimators
whose fitted state agrees produce exactly the same output on the same
prediction input. -/
theorem fit_predict_deterministic (g1 g2 : GroupEstimate)
    (hest : g1.estimate = g2.estimate) :
    (∀ X y dc, g1.fit X y dc = g2.fit X y dc) ∧
    (g1.group_estimates = g2.group_estimates →
      g1.default_category = g2.default_category →
      g1.default_estimates = g2.default_estimates →
      ∀ X_, g1.predict X_ = g2.predict X_) := by
  constructor
  · intro X y dc
    unfold GroupEstimate.fit
    rw [hest]
  · intro h1 h2 h3 X_
    unfold GroupEstimate.predict
    rw [h1, h2, h3]

theorem fit_predict_deterministic_witness :
    exFit.estimate = exFitFb.estimate ∧
    ((∀ X y dc, exFit.fit X y dc = exFitFb.fit X y dc) ∧
      (exFit.group_estimates = exFitFb.group_estimates →
        exFit.default_category = exFitFb.default_category →
        exFit.default_estimates = exFitFb.default_estimates →
        ∀ X_, exFit.predict X_ = exFitFb.predict X_)) :=
  ⟨rfl, fit_predict_deterministic exFit exFitFb rfl⟩

/-- Claim C5: on a fitted estimator, a named prediction table whose column
set equals the fitted feature columns but in a different order predicts
identically to the canonically ordered table (the same table with columns
reordered to the fitted order), and a named table whose column set does not
match fails with `SchemaMismatch`. -/
theorem predict_column_reorder (g : GroupEstimate) (ec : List String)
    (table : List (List String × ℚ))
    (hst : g.group_estimates = some (ec, table)) (df : DataFrame) :
    (df.cols ≠ ec → sameColSet df.cols ec = true →
      g.predict (PredictInput.frame df) =
        g.predict (PredictInput.frame (DataFrame.selectCols df ec))) ∧
    (sameColSet df.cols ec = false →
      g.predict (PredictInput.frame df) = Except.error PredictError.schemaMismatch) := by
  constructor
  · intro hne hset
    rw [predict_frame_match hst (DataFrame.selectCols df ec) rfl]
    unfold GroupEstimate.predict
    rw [hst]
    simp only [if_neg hne, hset, if_pos]
    rfl
  · intro hset
    have hne : df.cols ≠ ec := by
      intro h
      rw [h, sameColSet_self] at hset
      exact Bool.noConfusion hset
    unfold GroupEstimate.predict
    rw [hst]
    simp only [if_neg hne, hset]
    rfl

theorem predict_column_reorder_witness :
    exFit.group_estimates = some (exX.cols, buildGroupTable Mode.mean exX.rows (ysOf exY)) ∧
    ((DataFrame.mk ["roast", "country"] [["Light", "US"]]).cols ≠ exX.cols →
      sameColSet (DataFrame.mk ["roast", "country"] [["Light", "US"]]).cols exX.cols = true →
      exFit.predict (PredictInput.frame (DataFrame.mk ["roast", "country"] [["Light", "US"]])) =
        exFit.predict (PredictInput.frame
          (DataFrame.selectCols (DataFrame.mk ["roast", "country"] [["Light", "US"]]) exX.cols))) ∧
    (sameColSet (DataFrame.mk ["roast", "country"] [["Light", "US"]]).cols exX.cols = false →
      exFit.predict (PredictInput.frame (DataFrame.mk ["roast", "country"] [["Light", "US"]])) =
        Except.error PredictError.schemaMismatch) :=
  ⟨rfl, predict_column_reorder exFit exX.cols (buildGroupTable Mode.mean exX.rows (ysOf exY))
    rfl (DataFrame.mk ["roast", "country"] [["Light", "US"]])⟩

/-- Claim C8: in median mode, the aggregate stored for a training group with
an even number 2*m of target values is the midpoint average of the two
middle values (positions m-1 and m) of that group's sorted target list. -/
theorem fit_median_even (g g' : GroupEstimate) (X : DataFrame)
    (y : List (Option ℚ)) (dc : Option String)
    (hmode : g.estimate = Mode.median)
    (hfit : g.fit X y dc = Except.ok g')
    (tcols : List String) (table : List (List String × ℚ))
    (htab : g'.group_estimates = some (tcols, table))
    (k : List String) (v : ℚ) (hk : lookupKey table k = some v)
    (m : Nat)
    (hlen : (groupTargets X.rows (ysOf y) k).length = 2 * m) :
    v = ((List.insertionSort (· ≤ ·) (groupTargets X.rows (ysOf y) k)).getD (m - 1) 0 +
         (List.insertionSort (· ≤ ·) (groupTargets X.rows (ysOf y) k)).getD m 0) / 2 := by
  obtain ⟨hl, hnn, hg⟩ := fit_ok_inv hfit
  subst hg
  simp only [Option.some.injEq, Prod.mk.injEq] at htab
  obtain ⟨hc, ht⟩ := htab
  rw [← ht, lookupKey_buildGroupTable] at hk
  obtain ⟨hmem, hv⟩ := hk
  rw [hmode] at hv
  rw [hv]
  simp only [aggregate, medianOf]
  have hslen : (List.insertionSort (· ≤ ·) (groupTargets X.rows (ysOf y) k)).length = 2 * m := by
    rw [List.length_insertionSort]
    exact hlen
  rw [hslen]
  have hodd : ¬(2 * m % 2 = 1) := by omega
  rw [if_neg hodd]
  have h2 : 2 * m / 2 = m := by omega
  rw [h2]

theorem fit_median_even_witness :
    (GroupEstimate.init Mode.median).estimate = Mode.median ∧
    (GroupEstimate.init Mode.median).fit exX8 exY8 none = Except.ok exFitMed ∧
    exFitMed.group_estimates =
      some (exX8.cols, buildGroupTable Mode.median exX8.rows (ysOf exY8)) ∧
    lookupKey (buildGroupTable Mode.median exX8.rows (ysOf exY8)) ["x"] =
      some (aggregate Mode.median (groupTargets exX8.rows (ysOf exY8) ["x"])) ∧
    (groupTargets exX8.rows (ysOf exY8) ["x"]).length = 2 * 2 ∧
    aggregate Mode.median (groupTargets exX8.rows (ysOf exY8) ["x"]) =
      ((List.insertionSort (· ≤ ·) (groupTargets exX8.rows (ysOf exY8) ["x"])).getD (2 - 1) 0 +
       (List.insertionSort (· ≤ ·) (groupTargets exX8.rows (ysOf exY8) ["x"])).getD 2 0) / 2 :=
  ⟨rfl, rfl, rfl, rfl, rfl,
    fit_median_even (GroupEstimate.init Mode.median) exFitMed exX8 exY8 none rfl rfl
      exX8.cols (buildGroupTable Mode.median exX8.rows (ysOf exY8)) rfl
      ["x"] (aggregate Mode.median (groupTargets exX8.rows (ysOf exY8) ["x"])) rfl 2 rfl⟩

/-- Claim C9: a successful fit fully replaces the fitted state: every
component of the successor (mode kept from construction, column list, group
aggregate table, fallback column, fallback table) is determined by the
aggregation mode and the fit inputs alone, with no dependence on any prior
fitted tables. Predict is embedded as a pure reader of this state — the
source method performs no assignment to `self` — so the state is unchanged
by every predict call by construction. -/
theorem fit_replaces_state (g g' : GroupEstimate) (X : DataFrame)
    (y : List (Option ℚ)) (dc : Option String)
    (hfit : g.fit X y dc = Except.ok g') :
    g'.estimate = g.estimate ∧
    g'.group_estimates = some (X.cols, buildGroupTable g.estimate X.rows (ysOf y)) ∧
    g'.default_category = dc ∧
    g'.default_estimates = fallbackOf g.estimate X (ysOf y) dc := by
  obtain ⟨h1, h2, hg⟩ := fit_ok_inv hfit
  subst hg
  exact ⟨rfl, rfl, rfl, rfl⟩

theorem fit_replaces_state_witness :
    (GroupEstimate.init Mode.mean).fit exX exY (some "country") = Except.ok exFitFb ∧
    (exFitFb.estimate = (GroupEstimate.init Mode.mean).estimate ∧
      exFitFb.group_estimates =
        some (exX.cols, buildGroupTable (GroupEstimate.init Mode.mean).estimate exX.rows (ysOf exY)) ∧
      exFitFb.default_category = some "country" ∧
      exFitFb.default_estimates =
        fallbackOf (GroupEstimate.init Mode.mean).estimate exX (ysOf exY) (some "country")) :=
  ⟨rfl, fit_replaces_state (GroupEstimate.init Mode.mean) exFitFb exX exY (some "country") rfl⟩

/-- Claim C10: on a fitted estimator, predicting an empty batch (zero rows)
succeeds with an empty output sequence and a zero missing count (so no
missing-row message is reported, which the source prints only for a
positive count). -/
theorem predict_empty_batch (g : GroupEstimate)
    (ec : List String) (table : List (List String × ℚ))
    (h : g.group_estimates = some (ec, table)) :
    g.predict (PredictInput.raw []) = Except.ok ([], 0) := by
  rw [predict_raw_eq h]
  rfl

theorem predict_empty_batch_witness :
    exFit.group_estimates = some (exX.cols, buildGroupTable Mode.mean exX.rows (ysOf exY)) ∧
    exFit.predict (PredictInput.raw []) = Except.ok ([], 0) :=
  ⟨rfl, predict_empty_batch exFit exX.cols (buildGroupTable Mode.mean exX.rows (ysOf exY)) rfl⟩
